import Mathlib

/-!
Shallow embedding of the permission / authorization core of the
`generic-backend` repository, together with theorems settling the
specification claims about it.

The embedding covers:
  * the pure permission helpers of `src/utils/permissions`
    (`findPermissionLevel`, `canManagePermissions`);
  * the booking-window predicate `canBookNow` and the request handlers
    `create` / `findEventBookings` of `BookingsController`;
  * the request handlers `create` / `patchEvent` / `findAll` of
    `EventsController`.

DateTime instants are embedded as integers (only their ordering is used by
the code).  External collaborators (token verification, the persistence
services) are passed as explicit function arguments, exactly where the
controllers call them.
-/

/-- A permission: a `name` identifying it and an integer `level` rank
(`Permission` of `src/models/user.model`). -/
structure Permission where
  name : String
  level : Int
deriving DecidableEq, Repr

/-- Modelled from the spec: the permission catalog (`Permissions` of
`src/models/user.model`, which is not part of the sources at hand).  The
spec names the sentinels ALL, MANAGE_PERMISSIONS, ADD_USER, MANAGE_EVENTS
and MANAGE_BOOKINGS and leaves their levels to external configuration; the
level values chosen here are representative and none of the theorems below
depends on them. -/
def Permissions.ALL : Permission := ⟨"ALL", 100⟩

/-- Modelled from the spec: see `Permissions.ALL`. -/
def Permissions.MANAGE_PERMISSIONS : Permission := ⟨"MANAGE_PERMISSIONS", 50⟩

/-- Modelled from the spec: see `Permissions.ALL`. -/
def Permissions.ADD_USER : Permission := ⟨"ADD_USER", 10⟩

/-- Modelled from the spec: see `Permissions.ALL`. -/
def Permissions.MANAGE_EVENTS : Permission := ⟨"MANAGE_EVENTS", 30⟩

/-- Modelled from the spec: see `Permissions.ALL`. -/
def Permissions.MANAGE_BOOKINGS : Permission := ⟨"MANAGE_BOOKINGS", 20⟩

/-- An entity carrying a home BDE and a list of permissions: the shape
`{ bdeUUID: string, permissions: Permission[] }` taken by
`canManagePermissions`. -/
structure PermHolder where
  bdeUUID : String
  permissions : List Permission
deriving DecidableEq, Repr

/-- Embeds `findPermissionLevel` of `src/utils/permissions`:
`Math.max(0, ... user.permissions.map(p => p.level))`. -/
def findPermissionLevel (permissions : List Permission) : Int :=
  (permissions.map fun p => p.level).foldl max 0

/-- Embeds `canManagePermissions` of `src/utils/permissions`: ALL bypass (unless
the target also holds ALL), then the MANAGE_PERMISSIONS capability gate,
then the same-BDE scope gate, then the strict level comparison. -/
def canManagePermissions (source target : PermHolder) : Bool :=
  if source.permissions.contains Permissions.ALL
      && !(target.permissions.contains Permissions.ALL) then
    true
  else if !(source.permissions.contains Permissions.MANAGE_PERMISSIONS) then
    false
  else if source.bdeUUID != target.bdeUUID then
    false
  else
    findPermissionLevel source.permissions > findPermissionLevel target.permissions

/-- The spec's words for `findPermissionLevel`: "the maximum `level` among
the entity's permissions, or `0` if it has none" — with no clamping of an
all-negative maximum to 0.  Kept separate from `findPermissionLevel` so the
two can be compared. -/
def maxLevelAmong : List Permission → Int
  | [] => 0
  | p :: ps => (ps.map fun q => q.level).foldl max p.level

/-- Folding `max` commutes with taking `max` of the start value. -/
theorem foldl_max_max (l : List Int) : ∀ a b : Int,
    l.foldl max (max a b) = max a (l.foldl max b) := by
  induction l with
  | nil => intro a b; rfl
  | cons c l ih =>
    intro a b
    simp only [List.foldl_cons]
    rw [max_assoc, ih]

/-- C4 (amended): `findPermissionLevel` returns the maximum of 0 and the
maximum level among the permissions (so 0 when there are none, and also 0
when all levels are negative); the result is never negative, and the
function is total. -/
theorem findPermissionLevel_eq_clamped_max (perms : List Permission) :
    findPermissionLevel perms = max 0 (maxLevelAmong perms) ∧
    0 ≤ findPermissionLevel perms := by
  have heq : findPermissionLevel perms = max 0 (maxLevelAmong perms) := by
    cases perms with
    | nil => rfl
    | cons p ps =>
      simp only [findPermissionLevel, maxLevelAmong, List.map_cons, List.foldl_cons]
      exact foldl_max_max (ps.map fun q => q.level) 0 p.level
  exact ⟨heq, heq ▸ le_max_left 0 (maxLevelAmong perms)⟩

/-- C4 counterexample: on an entity whose only permission has a negative
level, `findPermissionLevel` returns 0, not the maximum level among the
permissions (which is -3). -/
theorem findPermissionLevel_clamps_negative :
    maxLevelAmong [⟨"NEG", -3⟩] = -3 ∧
    findPermissionLevel [⟨"NEG", -3⟩] = 0 ∧
    findPermissionLevel [⟨"NEG", -3⟩] ≠ maxLevelAmong [⟨"NEG", -3⟩] := by
  refine ⟨rfl, rfl, ?_⟩
  decide

/-- C1 (amended): `canManagePermissions` returns true whenever the source
holds ALL and the target does not, regardless of BDE or levels.  When the
target also holds ALL the bypass branch does not fire; the result is then
true exactly when the source holds MANAGE_PERMISSIONS, the two BDEs agree,
and the source's permission level is strictly greater than the target's. -/
theorem canManagePermissions_all_semantics (source target : PermHolder) :
    (source.permissions.contains Permissions.ALL = true →
      target.permissions.contains Permissions.ALL = false →
      canManagePermissions source target = true) ∧
    (target.permissions.contains Permissions.ALL = true →
      (canManagePermissions source target = true ↔
        (source.permissions.contains Permissions.MANAGE_PERMISSIONS = true ∧
          source.bdeUUID = target.bdeUUID ∧
          findPermissionLevel target.permissions <
            findPermissionLevel source.permissions))) := by
  constructor
  · intro h1 h2
    have h1m : Permissions.ALL ∈ source.permissions := by simpa using h1
    have h2m : Permissions.ALL ∉ target.permissions := by simpa using h2
    simp [canManagePermissions, h1m, h2m]
  · intro h
    have hm : Permissions.ALL ∈ target.permissions := by simpa using h
    by_cases hmp : Permissions.MANAGE_PERMISSIONS ∈ source.permissions
    · by_cases hbde : source.bdeUUID = target.bdeUUID
      · simp [canManagePermissions, hm, hmp, hbde]
      · simp [canManagePermissions, hm, hmp, hbde]
    · simp [canManagePermissions, hm, hmp]

/-- Witness for C1's theorem at a concrete input: a source holding ALL can
manage a target not holding it. -/
theorem canManagePermissions_all_semantics_witness :
    canManagePermissions ⟨"bde-1", [Permissions.ALL]⟩ ⟨"bde-2", []⟩ = true :=
  (canManagePermissions_all_semantics ⟨"bde-1", [Permissions.ALL]⟩ ⟨"bde-2", []⟩).1
    (by decide) (by decide)

/-- C1 counterexample: a target holding ALL for which `canManagePermissions`
returns true — the source holds ALL (so the bypass branch is skipped, both
holding ALL) together with MANAGE_PERMISSIONS and a strictly higher-level
permission in the same BDE, and the MANAGE_PERMISSIONS path grants. -/
theorem canManagePermissions_all_target_managed :
    (⟨"bde-1", [Permissions.ALL]⟩ : PermHolder).permissions.contains
        Permissions.ALL = true ∧
    canManagePermissions
      ⟨"bde-1", [Permissions.ALL, Permissions.MANAGE_PERMISSIONS, ⟨"SUPER", 200⟩]⟩
      ⟨"bde-1", [Permissions.ALL]⟩ = true := by
  refine ⟨by decide, ?_⟩
  decide

/-- C2 (amended): when the source's and target's BDEs differ and the ALL
bypass does not apply (it is not the case that the source holds ALL and the
target does not), `canManagePermissions` returns false — in particular even
when the source's level is strictly greater than the target's. -/
theorem canManagePermissions_cross_bde_denied (source target : PermHolder)
    (hbde : source.bdeUUID ≠ target.bdeUUID)
    (hnobypass : ¬(source.permissions.contains Permissions.ALL = true ∧
        target.permissions.contains Permissions.ALL = false)) :
    canManagePermissions source target = false := by
  by_cases hall : Permissions.ALL ∈ source.permissions
  · have htgt : Permissions.ALL ∈ target.permissions := by
      by_contra hc
      exact hnobypass ⟨by simpa using hall, by simpa using hc⟩
    by_cases hmp : Permissions.MANAGE_PERMISSIONS ∈ source.permissions
    · simp [canManagePermissions, hall, htgt, hmp, hbde]
    · simp [canManagePermissions, hall, htgt, hmp, hbde]
  · by_cases hmp : Permissions.MANAGE_PERMISSIONS ∈ source.permissions
    · simp [canManagePermissions, hall, hmp, hbde]
    · simp [canManagePermissions, hall, hmp, hbde]

/-- Witness for C2's theorem at a concrete input: MANAGE_PERMISSIONS with a
higher level but the wrong BDE is denied. -/
theorem canManagePermissions_cross_bde_denied_witness :
    canManagePermissions
      ⟨"bde-1", [Permissions.MANAGE_PERMISSIONS]⟩ ⟨"bde-2", []⟩ = false :=
  canManagePermissions_cross_bde_denied
    ⟨"bde-1", [Permissions.MANAGE_PERMISSIONS]⟩ ⟨"bde-2", []⟩
    (by decide) (by decide)

/-- C2 counterexample: a source holding ALL manages a target of a different
BDE (with a strictly greater level), so differing BDEs alone do not force a
false result. -/
theorem canManagePermissions_cross_bde_all_bypass :
    ("bde-1" : String) ≠ "bde-2" ∧
    findPermissionLevel [] < findPermissionLevel [Permissions.ALL] ∧
    canManagePermissions ⟨"bde-1", [Permissions.ALL]⟩ ⟨"bde-2", []⟩ = true := by
  refine ⟨by decide, by decide, ?_⟩
  decide

/-- C3: for a source holding MANAGE_PERMISSIONS and a target of the same
BDE, when the ALL bypass does not apply, `canManagePermissions` returns
true exactly when the source's permission level is strictly greater than
the target's; in particular equal levels yield false. -/
theorem canManagePermissions_strict_hierarchy (source target : PermHolder)
    (hmp : source.permissions.contains Permissions.MANAGE_PERMISSIONS = true)
    (hbde : source.bdeUUID = target.bdeUUID)
    (hnobypass : ¬(source.permissions.contains Permissions.ALL = true ∧
        target.permissions.contains Permissions.ALL = false)) :
    (canManagePermissions source target = true ↔
      findPermissionLevel target.permissions <
        findPermissionLevel source.permissions) ∧
    (findPermissionLevel source.permissions = findPermissionLevel target.permissions →
      canManagePermissions source target = false) := by
  have hmain : canManagePermissions source target = true ↔
      findPermissionLevel target.permissions <
        findPermissionLevel source.permissions := by
    have hmpm : Permissions.MANAGE_PERMISSIONS ∈ source.permissions := by
      simpa using hmp
    by_cases hall : Permissions.ALL ∈ source.permissions
    · have htgt : Permissions.ALL ∈ target.permissions := by
        by_contra hc
        exact hnobypass ⟨by simpa using hall, by simpa using hc⟩
      simp [canManagePermissions, hall, htgt, hmpm, hbde]
    · simp [canManagePermissions, hall, hmpm, hbde]
  refine ⟨hmain, fun heq => ?_⟩
  rw [Bool.eq_false_iff]
  intro hc
  exact absurd (hmain.mp hc) (by rw [heq]; exact lt_irrefl _)

/-- Witness for C3's theorem at a concrete input: equal levels in the same
BDE cannot manage each other. -/
theorem canManagePermissions_strict_hierarchy_witness :
    canManagePermissions
      ⟨"bde-1", [Permissions.MANAGE_PERMISSIONS]⟩
      ⟨"bde-1", [Permissions.MANAGE_PERMISSIONS]⟩ = false :=
  (canManagePermissions_strict_hierarchy
    ⟨"bde-1", [Permissions.MANAGE_PERMISSIONS]⟩
    ⟨"bde-1", [Permissions.MANAGE_PERMISSIONS]⟩
    (by decide) rfl (by decide)).2 rfl

/-- Modelled from the spec: the decoded identity produced by token
verification (`JWTClaims` of `src/services`, whose definition is not among
the sources).  The spec gives it a `uuid`, the owning `bdeUUID`, name
fields, and — since `canManageEvents` / `canManageBooking` consult the
identity's permissions — the permission set it carries. -/
structure JWTClaims where
  uuid : String
  firstname : String
  lastname : String
  bdeUUID : String
  permissions : List Permission
deriving DecidableEq, Repr

/-- The target of a booking-management decision:
`{ userUUID, bdeUUID }`. -/
structure BookingTarget where
  userUUID : String
  bdeUUID : String
deriving DecidableEq, Repr

/-- Modelled from the spec: `canManageEvents(identity, bdeUUID)` of
`src/utils/permissions` (not among the sources): grants when the identity
holds ALL, or holds MANAGE_EVENTS and belongs to the same BDE. -/
def canManageEvents (claims : JWTClaims) (bdeUUID : String) : Bool :=
  claims.permissions.contains Permissions.ALL ||
    (claims.permissions.contains Permissions.MANAGE_EVENTS
      && claims.bdeUUID == bdeUUID)

/-- Modelled from the spec: `canManageBooking(identity, target)` of
`src/utils/permissions` (not among the sources): grants when the identity
holds ALL, or holds MANAGE_BOOKINGS and belongs to the target's BDE, or is
the target user themselves (self-access exception). -/
def canManageBooking (claims : JWTClaims) (target : BookingTarget) : Bool :=
  claims.permissions.contains Permissions.ALL ||
    (claims.permissions.contains Permissions.MANAGE_BOOKINGS
      && claims.bdeUUID == target.bdeUUID) ||
    claims.uuid == target.userUUID

/-- Embeds `Event` of `src/models`: DateTime instants are embedded as integers
(the code only compares them). -/
structure Event where
  eventUUID : String
  bdeUUID : String
  eventName : String
  isDraft : Bool
  bookingStart : Option Int := none
  bookingEnd : Option Int := none
  eventDate : Option Int := none
deriving DecidableEq, Repr

/-- Embeds `Booking` of `src/models`. -/
structure Booking where
  eventUUID : String
  userUUID : String
deriving DecidableEq, Repr

/-- A `Booking & Event` intersection row, as returned by
`findBookingsForEvent` / `findBookingsForUser`. -/
structure BookingWithEvent where
  eventUUID : String
  userUUID : String
  bdeUUID : String
  eventName : String
  isDraft : Bool
  bookingStart : Option Int := none
  bookingEnd : Option Int := none
  eventDate : Option Int := none
deriving DecidableEq, Repr

/-- The HTTP-shaped response values of `src/utils/http-code`. -/
inductive Response (α : Type) where
  | ok : α → Response α
  | created : α → Response α
  | noContent : Response α
  | badRequest : String → Response α
  | unauthorized : String → Response α
  | forbidden : String → Response α
  | notFound : String → Response α
  | internalServerError : String → Response α
deriving DecidableEq, Repr

/-- The HTTP status code carried by each response constructor. -/
def Response.status {α : Type} : Response α → Nat
  | .ok _ => 200
  | .created _ => 201
  | .noContent => 204
  | .badRequest _ => 400
  | .unauthorized _ => 401
  | .forbidden _ => 403
  | .notFound _ => 404
  | .internalServerError _ => 500

/-- The typed domain errors of the events service. -/
inductive EventsError where
  | eventNotExists
  | bdeUuidNotExists
  | internalError
deriving DecidableEq, Repr

/-- The typed domain errors of the bookings service. -/
inductive BookingsError where
  | eventNotExists
  | userNotExists
  | bookingAlreadyExists
  | internalError
deriving DecidableEq, Repr

/-- Modelled from the spec: the message carried by a failed request-shape
validation (`result.error.message` produced by `src/validation`, which is
not among the sources); none of the claims depends on its text. -/
def validationErrorMessage : String := "invalid request body"

/-- Embeds `BookingsController.canBookNow`, with the implicit `DateTime.local()`
made an explicit `now` argument: false when `bookingStart` is set and
strictly after `now`, false when `bookingEnd` is set and strictly before
`now`, true otherwise. -/
def canBookNow (event : Event) (now : Int) : Bool :=
  if event.bookingStart.any fun s => decide (now < s) then
    false
  else if event.bookingEnd.any fun e => decide (e < now) then
    false
  else
    true

/-- The body shape accepted by `EventsController`'s validator
(`EventBodyRequest`), date fields already parsed to instants
(`toBeDateTime` guarantees they parse). -/
structure EventBodyRequest where
  name : String
  bde : String
  isDraft : Bool
  bookingStart : Option Int := none
  bookingEnd : Option Int := none
  eventDate : Option Int := none
deriving DecidableEq, Repr

/-- Modelled from the spec: the request-shape validator configured in
`EventsController.EVENT_VALIDATOR` (`ValidatorBuilder` of `src/validation`
is not among the sources).  A body of the wrong shape is embedded as
`none`; a typed body passes exactly when the length constraints configured
in the controller hold: `name` of length 1..200 and `bde` of length at
least 1. -/
def EventsController.validate (body : Option EventBodyRequest) :
    Option EventBodyRequest :=
  match body with
  | none => none
  | some b =>
    if 1 ≤ b.name.length && b.name.length ≤ 200 && 1 ≤ b.bde.length then
      some b
    else
      none

/-- Embeds `EventsController.assignDates`: copies each date present in the request
data onto the event. -/
def EventsController.assignDates (event : Event) (eventData : EventBodyRequest) :
    Event :=
  let e1 :=
    match eventData.bookingStart with
    | some d => { event with bookingStart := some d }
    | none => event
  let e2 :=
    match eventData.bookingEnd with
    | some d => { e1 with bookingEnd := some d }
    | none => e1
  match eventData.eventDate with
  | some d => { e2 with eventDate := some d }
  | none => e2

/-- Embeds `EventsController.areBookingDatesWellOrdered`: the booking start is
strictly before the booking end whenever both are given. -/
def areBookingDatesWellOrdered (event : Event) : Bool :=
  match event.bookingStart, event.bookingEnd with
  | some s, some e => decide (s < e)
  | _, _ => true

/-- The event instance built by `EventsController.create` / `patchEvent`
from a validated body: the base record followed by `assignDates`. -/
def EventsController.eventFromBody (eventUUID : String) (v : EventBodyRequest) :
    Event :=
  EventsController.assignDates
    { eventUUID := eventUUID, bdeUUID := v.bde, eventName := v.name,
      isDraft := v.isDraft } v

/-- Embeds `EventsController.create`.  The external collaborators are explicit
arguments: `verifyToken` (returns `none` on an invalid token),
`svcCreate` (the events service), and `genUUID` (the generated `uuid()`). -/
def EventsController.create
    (verifyToken : String → Option JWTClaims)
    (svcCreate : Event → Except EventsError Event)
    (genUUID : String)
    (body : Option EventBodyRequest)
    (token : Option String) : Response Event :=
  match token with
  | none => Response.unauthorized "You must be connected."
  | some t =>
    match verifyToken t with
    | none => Response.unauthorized "The given token is invalid."
    | some claims =>
      match EventsController.validate body with
      | none => Response.badRequest validationErrorMessage
      | some v =>
        let event := EventsController.eventFromBody genUUID v
        if !areBookingDatesWellOrdered event then
          Response.badRequest
            "Booking end date must come (strictly) after booking beginning date."
        else if !canManageEvents claims v.bde then
          Response.forbidden "You do not have the permission to create this event."
        else
          match svcCreate event with
          | Except.ok e => Response.created e
          | Except.error EventsError.bdeUuidNotExists =>
              Response.badRequest "Given bde UUID does not exist."
          | Except.error _ =>
              Response.internalServerError
                "Unable to create an event. Contact an administrator or retry later."

/-- Embeds `EventsController.patchEvent`. -/
def EventsController.patchEvent
    (verifyToken : String → Option JWTClaims)
    (svcFindByUUID : String → Except EventsError Event)
    (svcUpdate : Event → Except EventsError Event)
    (eventUUID : String)
    (body : Option EventBodyRequest)
    (token : Option String) : Response Event :=
  match token with
  | none => Response.unauthorized "You must be connected."
  | some t =>
    match verifyToken t with
    | none => Response.unauthorized "The given token is invalid."
    | some claims =>
      match EventsController.validate body with
      | none => Response.badRequest validationErrorMessage
      | some v =>
        let event := EventsController.eventFromBody eventUUID v
        if !areBookingDatesWellOrdered event then
          Response.badRequest
            "bookingEnd date must come (strictly) after bookingStart date."
        else
          match svcFindByUUID event.eventUUID with
          | Except.error EventsError.eventNotExists =>
              Response.notFound
                ("No event with uuid " ++ event.eventUUID ++ " exists.")
          | Except.error _ =>
              Response.internalServerError
                "Unable to patch the event. Please contact and adminstrator or retry later."
          | Except.ok fetchedEvent =>
            if event.bdeUUID != fetchedEvent.bdeUUID
                && !canManageEvents claims event.bdeUUID then
              Response.forbidden "You do not have the permission to patch this event."
            else if !canManageEvents claims fetchedEvent.bdeUUID then
              Response.forbidden "You do not have the permission to patch this event."
            else
              match svcUpdate event with
              | Except.ok e => Response.ok e
              | Except.error EventsError.eventNotExists =>
                  Response.notFound
                    ("No event with uuid " ++ event.eventUUID ++ " exists.")
              | Except.error EventsError.bdeUuidNotExists =>
                  Response.badRequest
                    ("No BDE with UUID " ++ event.bdeUUID ++ " exists.")
              | Except.error _ =>
                  Response.internalServerError
                    "Unable to patch event. Contact an administrator or retry later."

/-- Embeds `EventsController.findAll`: fetch all events (failure is a 500), then
decode the claims when a token is given (a failed verification is treated
like an absent token), and keep the events that are not drafts or whose BDE
the authenticated caller can manage. -/
def EventsController.findAll
    (verifyToken : String → Option JWTClaims)
    (svcFindAll : Except EventsError (List Event))
    (token : Option String) : Response (List Event) :=
  match svcFindAll with
  | Except.error _ => Response.internalServerError "Unable to list events."
  | Except.ok events =>
    let jwtClaims : Option JWTClaims :=
      match token with
      | none => none
      | some t => verifyToken t
    Response.ok (events.filter fun event =>
      !event.isDraft ||
        (match jwtClaims with
         | some c => canManageEvents c event.bdeUUID
         | none => false))

/-- The request body received by `BookingsController.create` before the
merge; the merge overwrites its `user` and `event` fields with the path
parameters, so only the optional `force` flag survives.  A `null` body is
embedded as `none` (the code replaces it by `{}`). -/
structure BookingRawBody where
  force : Option Bool := none
deriving DecidableEq, Repr

/-- The `force` flag of the merged body: absent when the raw body is
`null`. -/
def BookingsController.mergedForce (body : Option BookingRawBody) : Option Bool :=
  match body with
  | none => none
  | some b => b.force

/-- Modelled from the spec: the request-shape validator configured in
`BookingsController.BOOKING_VALIDATOR` (`ValidatorBuilder` of
`src/validation` is not among the sources).  After the merge the `user` and
`event` fields are the path parameters; the validator requires each to be a
string of length 1..36, and `force`, being typed, always passes its
optional boolean check. -/
def BookingsController.validate (user event : String) : Bool :=
  decide (1 ≤ user.length ∧ user.length ≤ 36
    ∧ 1 ≤ event.length ∧ event.length ≤ 36)

/-- Embeds `BookingsController.create`, with `DateTime.local()` made an explicit
`now` argument. -/
def BookingsController.create
    (verifyToken : String → Option JWTClaims)
    (svcFindEvent : String → Except EventsError Event)
    (svcCreateBooking : Booking → Except BookingsError Booking)
    (now : Int)
    (eventUUID userUUID : String)
    (body : Option BookingRawBody)
    (token : Option String) : Response Booking :=
  match token with
  | none => Response.unauthorized "You must authenticate."
  | some t =>
    match verifyToken t with
    | none => Response.unauthorized "The given token is invalid."
    | some jwtClaims =>
      if !BookingsController.validate userUUID eventUUID then
        Response.badRequest validationErrorMessage
      else
        let booking : Booking := { eventUUID := eventUUID, userUUID := userUUID }
        match svcFindEvent booking.eventUUID with
        | Except.error EventsError.eventNotExists =>
            Response.badRequest "Invalid event UUID specified."
        | Except.error _ =>
            Response.internalServerError
              "Unable to create booking. Contact an adminstrator or retry later."
        | Except.ok event =>
          if !canManageBooking jwtClaims
              { userUUID := booking.userUUID, bdeUUID := event.bdeUUID } then
            Response.forbidden "You do not have the permission to create this booking."
          else if BookingsController.mergedForce body == some true
              && !canManageEvents jwtClaims event.bdeUUID then
            Response.forbidden "You do not have permission to force booking."
          else if !(BookingsController.mergedForce body == some true)
              && !canBookNow event now then
            Response.forbidden "It is not possible to book this event now."
          else
            match svcCreateBooking booking with
            | Except.ok b => Response.created b
            | Except.error BookingsError.eventNotExists =>
                Response.badRequest "Specified bde UUID is invalid."
            | Except.error BookingsError.userNotExists =>
                Response.badRequest "Specified user UUID is invalid."
            | Except.error BookingsError.bookingAlreadyExists =>
                Response.badRequest "This booking already exists."
            | Except.error _ =>
                Response.internalServerError
                  "Unable to create booking. Contact an adminstrator or retry later."

/-- Embeds `BookingsController.findEventBookings`: authenticate, fetch the
bookings for the event, and return them as-is — the per-booking
`canManageBooking` filter present in `findUserBookings` is commented out
here. -/
def BookingsController.findEventBookings
    (verifyToken : String → Option JWTClaims)
    (svcFindBookingsForEvent : String → Except Unit (List BookingWithEvent))
    (eventUUID : String)
    (token : Option String) : Response (List BookingWithEvent) :=
  match token with
  | none => Response.unauthorized "You must authenticate."
  | some t =>
    match verifyToken t with
    | none => Response.unauthorized "The given token is invalid."
    | some _ =>
      match svcFindBookingsForEvent eventUUID with
      | Except.error _ =>
          Response.internalServerError
            "Unable to fecth bookings. Contact an adminstrator or retry later."
      | Except.ok bookings => Response.ok bookings

/-- C9: `canBookNow` is true exactly when every set `bookingStart` is at or
before `now` and every set `bookingEnd` is at or after `now` — an absent
bound imposes no restriction on its side (so with no bounds it is always
true), and it only fails when a set start is strictly after `now` or a set
end is strictly before `now`. -/
theorem canBookNow_window (event : Event) (now : Int) :
    canBookNow event now =
      ((event.bookingStart.all fun s => decide (s ≤ now))
        && (event.bookingEnd.all fun e => decide (now ≤ e))) := by
  cases hs : event.bookingStart with
  | none =>
    cases he : event.bookingEnd with
    | none => simp [canBookNow, hs, he]
    | some e =>
      by_cases h2 : e < now
      · simp [canBookNow, hs, he, h2, Int.not_le.mpr h2]
      · simp [canBookNow, hs, he, h2, Int.not_lt.mp h2]
  | some s =>
    cases he : event.bookingEnd with
    | none =>
      by_cases h1 : now < s
      · simp [canBookNow, hs, he, h1, Int.not_le.mpr h1]
      · simp [canBookNow, hs, he, h1, Int.not_lt.mp h1]
    | some e =>
      simp only [canBookNow, hs, he, Option.any_some, Option.all_some]
      by_cases h1 : now < s
      · simp [h1, Int.not_le.mpr h1]
      · by_cases h2 : e < now
        · simp [h1, h2, Int.not_le.mpr h2, Int.not_lt.mp h1]
        · simp [h1, h2, Int.not_lt.mp h1, Int.not_lt.mp h2]

/-- C5: for every authenticated caller — whatever its claims, with no
`canManageBooking` check — `findEventBookings` answers 200 with exactly the
list the booking service reports for the event. -/
theorem findEventBookings_unfiltered
    (verifyToken : String → Option JWTClaims)
    (svcFindBookingsForEvent : String → Except Unit (List BookingWithEvent))
    (eventUUID t : String) (claims : JWTClaims)
    (bookings : List BookingWithEvent)
    (hverify : verifyToken t = some claims)
    (hsvc : svcFindBookingsForEvent eventUUID = Except.ok bookings) :
    BookingsController.findEventBookings verifyToken svcFindBookingsForEvent
        eventUUID (some t) = Response.ok bookings := by
  simp [BookingsController.findEventBookings, hverify, hsvc]

/-- Witness for C5's theorem at a concrete input: a caller with no
permissions, from another BDE and distinct from the booking's user, still
receives the full list. -/
theorem findEventBookings_unfiltered_witness :
    BookingsController.findEventBookings
      (fun _ => some ⟨"user-1", "fn", "ln", "bde-1", []⟩)
      (fun _ => Except.ok
        [{ eventUUID := "event-1", userUUID := "user-2", bdeUUID := "bde-2",
           eventName := "Party", isDraft := false }])
      "event-1" (some "tok") =
      Response.ok
        [{ eventUUID := "event-1", userUUID := "user-2", bdeUUID := "bde-2",
           eventName := "Party", isDraft := false }] :=
  findEventBookings_unfiltered _ _ _ _ ⟨"user-1", "fn", "ln", "bde-1", []⟩ _
    rfl rfl

/-- C7: for every list the events service reports, `findAll` answers 200
with exactly the events that are not drafts or whose BDE the authenticated
caller can manage — so a draft is kept precisely when the token verifies
into claims that can manage events of the draft's BDE, and dropped for an
unauthenticated caller. -/
theorem findAll_keeps_visible_events
    (verifyToken : String → Option JWTClaims)
    (events : List Event) (token : Option String) :
    ∃ kept : List Event,
      EventsController.findAll verifyToken (Except.ok events) token =
        Response.ok kept ∧
      ∀ event : Event, event ∈ kept ↔ event ∈ events ∧
        (event.isDraft = false ∨
          ∃ t claims, token = some t ∧ verifyToken t = some claims ∧
            canManageEvents claims event.bdeUUID = true) := by
  refine ⟨_, rfl, fun event => ?_⟩
  rw [List.mem_filter]
  cases token with
  | none => simp
  | some t =>
    cases hv : verifyToken t with
    | none => simp [hv]
    | some claims => simp [hv]

/-- The events handed to the events service by `EventsController.create`
always have well-ordered booking dates: the handler's outcome only depends
on the service's behaviour at events satisfying
`areBookingDatesWellOrdered`. -/
theorem create_event_service_sees_well_ordered
    (verifyToken : String → Option JWTClaims)
    (svcCreate1 svcCreate2 : Event → Except EventsError Event)
    (genUUID : String)
    (body : Option EventBodyRequest) (token : Option String)
    (hagree : ∀ ev : Event, areBookingDatesWellOrdered ev = true →
      svcCreate1 ev = svcCreate2 ev) :
    EventsController.create verifyToken svcCreate1 genUUID body token =
      EventsController.create verifyToken svcCreate2 genUUID body token := by
  cases token with
  | none => rfl
  | some t =>
    simp only [EventsController.create]
    cases verifyToken t with
    | none => rfl
    | some claims =>
      cases EventsController.validate body with
      | none => rfl
      | some v =>
        simp only []
        by_cases hw : areBookingDatesWellOrdered (EventsController.eventFromBody genUUID v)
        · simp only [hw, Bool.not_true, Bool.false_eq_true, if_false,
            hagree _ hw]
        · rw [Bool.not_eq_true] at hw
          simp [hw]

/-- C8: with a valid token and a valid body giving both booking dates with
`bookingEnd ≤ bookingStart`, `EventsController.create` answers 400 for
every caller — the date-order check is decided before the `canManageEvents`
authorization check, whatever permissions the claims carry; and every event
handed to the events service has well-ordered booking dates (the outcome
only depends on the service's behaviour at such events). -/
theorem create_event_rejects_ill_ordered_dates
    (verifyToken : String → Option JWTClaims)
    (svcCreate : Event → Except EventsError Event)
    (genUUID t : String) (b : EventBodyRequest) (s e : Int)
    (hauth : ∃ claims, verifyToken t = some claims)
    (hvalid : EventsController.validate (some b) = some b)
    (hstart : b.bookingStart = some s)
    (hend : b.bookingEnd = some e)
    (horder : e ≤ s) :
    EventsController.create verifyToken svcCreate genUUID (some b) (some t) =
      Response.badRequest
        "Booking end date must come (strictly) after booking beginning date." ∧
    ∀ (svcCreate1 svcCreate2 : Event → Except EventsError Event)
      (body : Option EventBodyRequest) (token : Option String),
      (∀ ev : Event, areBookingDatesWellOrdered ev = true →
        svcCreate1 ev = svcCreate2 ev) →
      EventsController.create verifyToken svcCreate1 genUUID body token =
        EventsController.create verifyToken svcCreate2 genUUID body token := by
  constructor
  · obtain ⟨claims, hv⟩ := hauth
    have hw : areBookingDatesWellOrdered
        (EventsController.eventFromBody genUUID b) = false := by
      cases hd : b.eventDate <;>
        simp [EventsController.eventFromBody, EventsController.assignDates,
          hstart, hend, hd, areBookingDatesWellOrdered] <;>
        omega
    simp [EventsController.create, hv, hvalid, hw]
  · exact fun svcCreate1 svcCreate2 body token hagree =>
      create_event_service_sees_well_ordered verifyToken svcCreate1 svcCreate2
        genUUID body token hagree

/-- Witness for C8's theorem at a concrete input: even a caller holding ALL
receives a 400 when `bookingEnd` (3) is not strictly after `bookingStart`
(5). -/
theorem create_event_rejects_ill_ordered_dates_witness :
    EventsController.create
      (fun _ => some ⟨"user-1", "fn", "ln", "bde-1", [Permissions.ALL]⟩)
      Except.ok "uuid-1"
      (some { name := "Party", bde := "bde-1", isDraft := false,
              bookingStart := some 5, bookingEnd := some 3 })
      (some "tok") =
      Response.badRequest
        "Booking end date must come (strictly) after booking beginning date." :=
  (create_event_rejects_ill_ordered_dates
    (fun _ => some ⟨"user-1", "fn", "ln", "bde-1", [Permissions.ALL]⟩)
    Except.ok "uuid-1" "tok"
    { name := "Party", bde := "bde-1", isDraft := false,
      bookingStart := some 5, bookingEnd := some 3 }
    5 3 ⟨_, rfl⟩ (by decide) rfl rfl (by decide)).1

/-- C6: in `BookingsController.create` with a valid token, a valid body, an
existing event, `canManageBooking` granted and `force` set: when the caller
cannot manage events of the event's BDE the answer is 403; when it can, the
booking-window predicate is never consulted (the outcome is the same at
every `now`) and, whenever the booking service accepts, the booking is
created. -/
theorem create_booking_force_semantics
    (verifyToken : String → Option JWTClaims)
    (svcFindEvent : String → Except EventsError Event)
    (svcCreateBooking : Booking → Except BookingsError Booking)
    (now : Int) (eventUUID userUUID t : String)
    (body : Option BookingRawBody) (claims : JWTClaims) (event : Event)
    (hverify : verifyToken t = some claims)
    (hvalid : BookingsController.validate userUUID eventUUID = true)
    (hfind : svcFindEvent eventUUID = Except.ok event)
    (hmanage : canManageBooking claims
      { userUUID := userUUID, bdeUUID := event.bdeUUID } = true)
    (hforce : BookingsController.mergedForce body = some true) :
    (canManageEvents claims event.bdeUUID = false →
      BookingsController.create verifyToken svcFindEvent svcCreateBooking now
          eventUUID userUUID body (some t) =
        Response.forbidden "You do not have permission to force booking.") ∧
    (canManageEvents claims event.bdeUUID = true →
      (∀ now2 : Int,
        BookingsController.create verifyToken svcFindEvent svcCreateBooking now
            eventUUID userUUID body (some t) =
          BookingsController.create verifyToken svcFindEvent svcCreateBooking now2
            eventUUID userUUID body (some t)) ∧
      ∀ b : Booking,
        svcCreateBooking { eventUUID := eventUUID, userUUID := userUUID } =
            Except.ok b →
        BookingsController.create verifyToken svcFindEvent svcCreateBooking now
            eventUUID userUUID body (some t) = Response.created b) := by
  constructor
  · intro hcme
    simp [BookingsController.create, hverify, hvalid, hfind, hmanage, hforce,
      hcme]
  · intro hcme
    constructor
    · intro now2
      simp [BookingsController.create, hverify, hvalid, hfind, hmanage, hforce,
        hcme]
    · intro b hok
      simp [BookingsController.create, hverify, hvalid, hfind, hmanage, hforce,
        hcme, hok]

/-- Witness for C6's theorem at a concrete input: a user booking for
themselves with `force` set but no MANAGE_EVENTS on the event's BDE gets a
403. -/
theorem create_booking_force_semantics_witness :
    BookingsController.create
      (fun _ => some ⟨"user-1", "fn", "ln", "bde-1", []⟩)
      (fun _ => Except.ok
        { eventUUID := "event-1", bdeUUID := "bde-2", eventName := "Party",
          isDraft := false, bookingEnd := some 0 })
      Except.ok 10 "event-1" "user-1" (some { force := some true })
      (some "tok") =
      Response.forbidden "You do not have permission to force booking." :=
  (create_booking_force_semantics
    (fun _ => some ⟨"user-1", "fn", "ln", "bde-1", []⟩)
    (fun _ => Except.ok
      { eventUUID := "event-1", bdeUUID := "bde-2", eventName := "Party",
        isDraft := false, bookingEnd := some 0 })
    Except.ok 10 "event-1" "user-1" "tok" (some { force := some true })
    ⟨"user-1", "fn", "ln", "bde-1", []⟩
    { eventUUID := "event-1", bdeUUID := "bde-2", eventName := "Party",
      isDraft := false, bookingEnd := some 0 }
    rfl (by decide) rfl (by decide) rfl).1 rfl

/-- The function `assignDates` only touches the date fields: the built event keeps the
path parameter as its UUID. -/
theorem eventFromBody_eventUUID (u : String) (v : EventBodyRequest) :
    (EventsController.eventFromBody u v).eventUUID = u := by
  cases hs : v.bookingStart <;> cases he : v.bookingEnd <;>
    cases hd : v.eventDate <;>
    simp [EventsController.eventFromBody, EventsController.assignDates,
      hs, he, hd]

/-- The function `assignDates` only touches the date fields: the built event carries the
body's `bde`. -/
theorem eventFromBody_bdeUUID (u : String) (v : EventBodyRequest) :
    (EventsController.eventFromBody u v).bdeUUID = v.bde := by
  cases hs : v.bookingStart <;> cases he : v.bookingEnd <;>
    cases hd : v.eventDate <;>
    simp [EventsController.eventFromBody, EventsController.assignDates,
      hs, he, hd]

/-- C10 (amended): in `patchEvent` with a valid token, a valid body whose
booking dates pass the date-order check, and an existing stored event, the
answer is 403 whenever the caller cannot manage events of the stored
event's BDE, or the body moves the event to a different BDE whose events
the caller cannot manage. -/
theorem patchEvent_requires_manage_on_old_and_new
    (verifyToken : String → Option JWTClaims)
    (svcFindByUUID : String → Except EventsError Event)
    (svcUpdate : Event → Except EventsError Event)
    (eventUUID t : String) (b : EventBodyRequest)
    (claims : JWTClaims) (storedEvent : Event)
    (hverify : verifyToken t = some claims)
    (hvalid : EventsController.validate (some b) = some b)
    (horder : areBookingDatesWellOrdered
      (EventsController.eventFromBody eventUUID b) = true)
    (hfind : svcFindByUUID eventUUID = Except.ok storedEvent)
    (hdeny : ¬(canManageEvents claims storedEvent.bdeUUID = true ∧
      (b.bde ≠ storedEvent.bdeUUID → canManageEvents claims b.bde = true))) :
    EventsController.patchEvent verifyToken svcFindByUUID svcUpdate eventUUID
        (some b) (some t) =
      Response.forbidden "You do not have the permission to patch this event." := by
  simp only [EventsController.patchEvent, hverify, hvalid]
  rw [eventFromBody_eventUUID]
  simp only [horder, Bool.not_true, Bool.false_eq_true, if_false, hfind]
  by_cases hnew : b.bde = storedEvent.bdeUUID
  · have hA : canManageEvents claims storedEvent.bdeUUID = false := by
      cases hAc : canManageEvents claims storedEvent.bdeUUID
      · rfl
      · exact absurd ⟨hAc, fun hne => (hne hnew).elim⟩ hdeny
    simp [eventFromBody_bdeUUID, hnew, hA]
  · by_cases hB : canManageEvents claims b.bde = true
    · have hA : canManageEvents claims storedEvent.bdeUUID = false := by
        cases hAc : canManageEvents claims storedEvent.bdeUUID
        · rfl
        · exact absurd ⟨hAc, fun _ => hB⟩ hdeny
      simp [eventFromBody_bdeUUID, hnew, hB, hA]
    · simp [eventFromBody_bdeUUID, hnew, hB]

/-- C10 counterexample: with a valid token, a body the shape validator
accepts but whose `bookingEnd` (3) is not after `bookingStart` (5), and an
existing stored event, a caller who cannot manage the stored event's BDE
receives a 400 from the date-order check, not a 403. -/
theorem patchEvent_ill_ordered_dates_give_400_not_403 :
    EventsController.patchEvent
      (fun _ => some ⟨"user-1", "fn", "ln", "bde-1", []⟩)
      (fun _ => Except.ok
        { eventUUID := "event-1", bdeUUID := "bde-1", eventName := "Party",
          isDraft := false })
      Except.ok "event-1"
      (some { name := "Party", bde := "bde-1", isDraft := false,
              bookingStart := some 5, bookingEnd := some 3 })
      (some "tok") =
      Response.badRequest
        "bookingEnd date must come (strictly) after bookingStart date." ∧
    canManageEvents ⟨"user-1", "fn", "ln", "bde-1", []⟩ "bde-1" = false := by
  exact ⟨by decide, by decide⟩

/-- Witness for C10's theorem at a concrete input: a permissionless caller
patching an existing event (no date change) is denied with a 403. -/
theorem patchEvent_requires_manage_witness :
    EventsController.patchEvent
      (fun _ => some ⟨"user-1", "fn", "ln", "bde-1", []⟩)
      (fun _ => Except.ok
        { eventUUID := "event-1", bdeUUID := "bde-1", eventName := "Party",
          isDraft := false })
      Except.ok "event-1"
      (some { name := "Party", bde := "bde-1", isDraft := false })
      (some "tok") =
      Response.forbidden "You do not have the permission to patch this event." :=
  patchEvent_requires_manage_on_old_and_new
    (fun _ => some ⟨"user-1", "fn", "ln", "bde-1", []⟩)
    (fun _ => Except.ok
      { eventUUID := "event-1", bdeUUID := "bde-1", eventName := "Party",
        isDraft := false })
    Except.ok "event-1" "tok"
    { name := "Party", bde := "bde-1", isDraft := false }
    ⟨"user-1", "fn", "ln", "bde-1", []⟩
    { eventUUID := "event-1", bdeUUID := "bde-1", eventName := "Party",
      isDraft := false }
    rfl (by decide) (by decide) rfl (by decide)
